import Mathlib

/-
Verification of the Pagify SDK (src/pagify.js) against its specification.

The development shallowly embeds the PagifySDK class: its mutable fields
become an explicit state record, DOM/console/postMessage side effects become
an explicit effect list, and the string-template document composition is
modelled as Lean string concatenation with every interpolation point of the
source template preserved in order.  Long inert static runs of JS/CSS text
inside the template literals are abbreviated (never the splice structure,
never the markers the theorems depend on); literal braces of the source text
are written with escape codes as required by Lean string syntax.
-/

namespace Pagify

/-- Callback values stored in the registries.  User-supplied functions are
opaque (identified by a tag); the two synthesized closures of `generatePDF`
(src/pagify.js lines 659-668) are distinguished constructors. -/
inductive Cb where
  | user (tag : Nat)
  | resolveWithFetchedBlob
  | rejectWithError
deriving DecidableEq

/-- The pair stored in `pdfCallbackStorage` by `render`
(src/pagify.js lines 154-159); either side may be null. -/
structure PdfCbs where
  onPdfReady : Option Cb
  onPdfError : Option Cb
deriving DecidableEq

/-- Mutable instance fields of the PagifySDK class (src/pagify.js lines 21-31).
A storage maps a key to `some v` when the key is present (`v` itself may be
`none`, mirroring a stored null callback) and to `none` when the key is
absent (deleted or never set). -/
structure SDKState where
  instanceCounter : Nat
  callbackStorage : Nat → Option (Option Cb)
  pdfCallbackStorage : Nat → Option PdfCbs

/-- DOM nodes relevant to mounting: `document.body` or some other element. -/
inductive Node where
  | body
  | element (tag : Nat)
deriving DecidableEq

/-- Result of `document.querySelector`: a node, a miss, or a thrown
SyntaxError for an invalid selector. -/
inductive QueryResult where
  | found (n : Node)
  | notFound
  | invalidSelector
deriving DecidableEq

/-- Host environment capabilities: `typeof window`, `typeof document`,
and the selector-resolution function. -/
structure Env where
  hasWindow : Bool
  hasDocument : Bool
  querySelector : String → QueryResult

/-- Style assignments made on the created iframe element
(src/pagify.js lines 608-626). -/
structure IframeStyle where
  width : Option String := none
  height : Option String := none
  border : Option String := none
  position : Option String := none
  top : Option String := none
  left : Option String := none
deriving DecidableEq

/-- An iframe: its style assignments and its `srcdoc` document source. -/
structure Iframe where
  style : IframeStyle
  srcdoc : String
deriving DecidableEq

/-- Observable side effects of the host-side code: console output, callback
invocations, global CustomEvent dispatches, and DOM appends. -/
inductive Effect where
  | consoleLog (msg : String)
  | consoleWarn (msg : String)
  | consoleError (msg : String)
  | invokeCb (c : Cb)
  | invokePdfReady (c : Cb) (blobUrl : String)
  | invokePdfError (c : Cb) (error : String)
  | dispatchEvent (name : String) (detail : String)
  | appendIframe (parent : Node) (frame : Iframe)
deriving DecidableEq

/-- Cross-context wire messages received by the listener
(src/pagify.js lines 38-77).  `iter` is `event.data?.iter`, which may be
absent; `other` stands for any unrecognized message shape. -/
inductive Message where
  | renderpdf (iter : Option Nat)
  | PDF_READY (iter : Option Nat) (blobUrl : String)
  | PDF_ERROR (iter : Option Nat) (error : String)
  | other
deriving DecidableEq

/-- A concrete binary object obtained by dereferencing a blob url
(`fetch(blobUrl).then(r => r.blob())`, src/pagify.js lines 661-663). -/
inductive Blob where
  | ofUrl (url : String)
deriving DecidableEq

/-- Outcome of invoking a pdf callback: resolving the pending promise of
`generatePDF` with a blob, rejecting it with an error message, or calling a
user-supplied function with the raw argument. -/
inductive CbResult where
  | resolveWith (b : Blob)
  | rejectWith (err : String)
  | invokeUser (tag : Nat) (arg : String)
deriving DecidableEq

/-- Semantics of a pdf-ready callback applied to a blob url: the synthesized
`onPdfReady` of `generatePDF` fetches the url into a concrete blob and
resolves with it (src/pagify.js lines 659-665); a user callback just receives
the url.  `rejectWithError` is never installed as a ready callback. -/
def applyPdfReady : Cb → String → Option CbResult
  | Cb.resolveWithFetchedBlob, url => some (CbResult.resolveWith (Blob.ofUrl url))
  | Cb.user t, url => some (CbResult.invokeUser t url)
  | Cb.rejectWithError, _ => none

/-- Semantics of a pdf-error callback applied to a message: the synthesized
`onPdfError` of `generatePDF` rejects with an error carrying the message text
(src/pagify.js lines 666-668); a user callback just receives the message. -/
def applyPdfError : Cb → String → Option CbResult
  | Cb.rejectWithError, msg => some (CbResult.rejectWith msg)
  | Cb.user t, msg => some (CbResult.invokeUser t msg)
  | Cb.resolveWithFetchedBlob, _ => none

/-- JS truthiness of a possibly-absent number (`undefined` and `0` are
falsy). -/
def jsTruthyNat : Option Nat → Bool
  | none => false
  | some n => n != 0

/-- JS truthiness of a possibly-absent string (`undefined` and `""` are
falsy). -/
def jsTruthyStr : Option String → Bool
  | none => false
  | some s => !s.isEmpty

/-- Caller-supplied render options with their source defaults
(src/pagify.js lines 128-145). -/
structure RenderOptions where
  body_html : String := ""
  header_html : String := ""
  footer_html : String := ""
  head_html : String := ""
  page_size : String := "A4"
  margin_left : String := "0mm"
  margin_right : String := "0mm"
  header_height : String := "0mm"
  footer_height : String := "0mm"
  page_number_selector : String := ""
  footer_only_on_last_page : Bool := false
  page_padding_top : String := "16px"
  callback : Option Cb := none
  onPdfReady : Option Cb := none
  onPdfError : Option Cb := none
  containerSelector : Option String := none

/-- Parameter object handed by `render` to `buildIframeHTML`
(src/pagify.js lines 168-182). -/
structure ComposeParams where
  instanceId : Nat
  body_html : String
  header_html : String
  footer_html : String
  head_html : String
  page_size : String
  margin_left : String
  margin_right : String
  header_height : String
  footer_height : String
  footer_only_on_last_page : Bool
  page_padding_top : String
  pageNumberCSS : String

/-- Page-numbering CSS derived from the selector (src/pagify.js lines
162-165); an empty selector is falsy, so no rule is emitted. -/
def pageNumberCSSOf (page_number_selector : String) : String :=
  if !page_number_selector.isEmpty then
    page_number_selector ++
      "::before \x7b content: \"Page \" counter(page) \" of \" counter(pages) \" \"; \x7d"
  else ""

/-- The literal text preceding each interpolated identifier inside the two
scripts: the source writes `iter: ${instanceId}` in every postMessage call. -/
def iterField (id : Nat) : String := "iter: " ++ Nat.repr id

/-- Static script text of `getPagedJSInitScript` up to the first identifier
splice (src/pagify.js lines 351-439; inert JS text condensed). -/
def pagedInitPart1 : String :=
  "document.fonts.ready.then(async () => \x7b try \x7b const mod = await import(pagedjs-esm); registerHandlers(RepeatingTableHeaders); const previewer = new Previewer(); const result = await previewer.preview(); totalPages = result.total; window.parent.postMessage(\x7b type: \"renderpdf\", "

/-- Static script text between the two identifier splices of the
initialization script (src/pagify.js lines 440-450). -/
def pagedInitPart2 : String :=
  "\x7d, \"*\"); generatePdfBlob(); \x7d catch (error) \x7b window.parent.postMessage(\x7b type: \"PDF_ERROR\", error: \"Failed to initialize Paged.js: \" + error.message, "

/-- Static script text after the last identifier splice of the
initialization script (src/pagify.js lines 451-453). -/
def pagedInitPart3 : String :=
  "\x7d, \"*\"); \x7d \x7d);"

/-- Paged.js initialization script (src/pagify.js lines 350-455): the numeric
instance identifier is interpolated into the `renderpdf` and `PDF_ERROR`
postMessage payloads. -/
def getPagedJSInitScript (instanceId : Nat) : String :=
  pagedInitPart1 ++ iterField instanceId ++ pagedInitPart2 ++ iterField instanceId ++
    pagedInitPart3

/-- Static script text of `getPdfGenerationScript` up to the `PDF_READY`
identifier splice, including the page-trimming loop modelled separately by
`trimExtraPages` (src/pagify.js lines 461-581; inert JS text condensed). -/
def pdfGenPart1 : String :=
  "async function generatePdfBlob() \x7b try \x7b const html2pdfLib = await loadHtml2pdf(); const targetElement = document.body; html2pdfLib().set(opt).from(targetElement).toPdf().get(\"pdf\").then(pdf => \x7b const pageCount = pdf.internal.getNumberOfPages(); if (pageCount > totalPages && totalPages > 0) \x7b for (let i = pageCount; i > totalPages; i--) \x7b pdf.deletePage(i); \x7d \x7d \x7d).outputPdf(\"blob\").then(function (blob) \x7b const blobUrl = URL.createObjectURL(blob); window.parent.postMessage(\x7b type: \"PDF_READY\", blobUrl: blobUrl, "

/-- Static script text between the `PDF_READY` splice and the promise-chain
`PDF_ERROR` splice (src/pagify.js lines 582-589). -/
def pdfGenPart2 : String :=
  "\x7d, \"*\"); \x7d).catch(error => \x7b window.parent.postMessage(\x7b type: \"PDF_ERROR\", error: error.message, "

/-- Static script text between the promise-chain `PDF_ERROR` splice and the
outer-catch `PDF_ERROR` splice (src/pagify.js lines 590-598). -/
def pdfGenPart3 : String :=
  "\x7d, \"*\"); \x7d); \x7d catch (error) \x7b window.parent.postMessage(\x7b type: \"PDF_ERROR\", error: error.message, "

/-- Static script text after the last identifier splice of the pdf
generation script (src/pagify.js lines 599-602). -/
def pdfGenPart4 : String :=
  "\x7d, \"*\"); \x7d \x7d"

/-- PDF generation script (src/pagify.js lines 460-603): the numeric instance
identifier is interpolated into the `PDF_READY` payload and both `PDF_ERROR`
payloads. -/
def getPdfGenerationScript (instanceId : Nat) : String :=
  pdfGenPart1 ++ iterField instanceId ++ pdfGenPart2 ++ iterField instanceId ++
    pdfGenPart3 ++ iterField instanceId ++ pdfGenPart4

/-- The three kinds of segment concatenated into the composed document's
body (src/pagify.js lines 324-342). -/
inductive BodySegment where
  | headerDiv (html : String)
  | footerDiv (html : String)
  | bodyContent (html : String)
deriving DecidableEq

/-- Rendering of one body segment as markup, exactly as the template writes
it: header and footer fragments are wrapped in full-width divs carrying the
running-position classes, the body fragment is spliced bare. -/
def renderBodySegment : BodySegment → String
  | BodySegment.headerDiv h => "<div class=\"header\" style=\"width: 100%\">" ++ h ++ "</div>"
  | BodySegment.footerDiv f => "<div class=\"footer\" style=\"width: 100%\">" ++ f ++ "</div>"
  | BodySegment.bodyContent b => b

/-- Body of the composed document as the ordered list of segments the
template concatenates (src/pagify.js lines 324-342): header div, then the
footer div unless footer-only-on-last-page, then the body content, then the
footer div only if footer-only-on-last-page. -/
def iframeBodySegments (footer_only_on_last_page : Bool)
    (header_html footer_html body_html : String) : List BodySegment :=
  [BodySegment.headerDiv header_html]
    ++ (if footer_only_on_last_page then [] else [BodySegment.footerDiv footer_html])
    ++ [BodySegment.bodyContent body_html]
    ++ (if footer_only_on_last_page then [BodySegment.footerDiv footer_html] else [])

/-- Whether a segment is a footer region. -/
def BodySegment.isFooter : BodySegment → Bool
  | BodySegment.footerDiv _ => true
  | _ => false

/-- Whether a segment is the main body content. -/
def BodySegment.isBody : BodySegment → Bool
  | BodySegment.bodyContent _ => true
  | _ => false

/-- Number of footer segments placed before the body content. -/
def footersBeforeBody (segs : List BodySegment) : Nat :=
  (segs.takeWhile (fun s => ! s.isBody)).countP BodySegment.isFooter

/-- Number of footer segments placed after the body content. -/
def footersAfterBody (segs : List BodySegment) : Nat :=
  ((segs.dropWhile (fun s => ! s.isBody)).drop 1).countP BodySegment.isFooter

/-- Static document text up to the init-script splice (src/pagify.js lines
218-233; inert markup condensed). -/
def docHead : String :=
  "<html> <head> <meta charset=\"UTF-8\"> <meta name=\"viewport\" content=\"width=device-width, initial-scale=1.0\"> <script> window.PagedConfig = \x7b auto: false, \x7d </script> <script> let totalPages; "

/-- Static document text between the two script splices (src/pagify.js
lines 234-236). -/
def scriptGap : String := " "

/-- Static style text from the script close up to the page-numbering splice
(src/pagify.js lines 237-248). -/
def styleHead : String :=
  " </script> <style> body \x7b -webkit-print-color-adjust: exact !important; print-color-adjust: exact !important; margin: 0; padding: 0; \x7d "

/-- Static style text between the page-numbering splice and the page-padding
splice (src/pagify.js lines 249-265). -/
def styleAfterPageNum : String :=
  " .header \x7b position: running(header); \x7d .footer \x7b position: running(footer); \x7d .pagedjs_page_content \x7b border-bottom-width: 1px; border-top-width: 1px; padding-top: "

/-- Static style text between the page-padding splice and the left-margin
splice (src/pagify.js lines 266-282). -/
def styleAfterPadding : String :=
  "; \x7d .pagedjs_pages \x7b align-items: center; display: flex; flex: 1; flex-direction: column; \x7d tr \x7b break-inside: avoid; \x7d @page \x7b margin-left: "

/-- Literal separator before the right-margin splice. -/
def cssMarginRight : String := "; margin-right: "

/-- Literal separator before the header-height splice. -/
def cssMarginTop : String := "; margin-top: "

/-- Literal separator before the footer-height splice. -/
def cssMarginBottom : String := "; margin-bottom: "

/-- Literal separator before the page-size splice. -/
def cssSize : String := "; size: "

/-- Static style text after the page-size splice through the style close
(src/pagify.js lines 287-321). -/
def styleTail : String :=
  "; @bottom-center \x7b content: element(footer); \x7d @top-center \x7b content: element(header); \x7d \x7d img \x7b max-width: 100%; height: auto; \x7d table \x7b border-collapse: collapse; width: 100%; \x7d .page-break-before \x7b page-break-before: always; \x7d .page-break-after \x7b page-break-after: always; \x7d .page-break-inside-avoid \x7b page-break-inside: avoid; \x7d </style> "

/-- Static markup between the head-content splice and the body segments. -/
def headCloseBodyOpen : String := " </head> <body> "

/-- Static markup closing the composed document. -/
def bodyClose : String := " </body> </html> "

/-- Everything of the composed document after the pdf-generation script:
style block with its five layout splices, extra head content, and the body
segments (src/pagify.js lines 237-343). -/
def buildTail (p : ComposeParams) : String :=
  styleHead ++ p.pageNumberCSS ++ styleAfterPageNum ++ p.page_padding_top ++
    styleAfterPadding ++ p.margin_left ++ cssMarginRight ++ p.margin_right ++
    cssMarginTop ++ p.header_height ++ cssMarginBottom ++ p.footer_height ++
    cssSize ++ p.page_size ++ styleTail ++ p.head_html ++ headCloseBodyOpen ++
    String.join ((iframeBodySegments p.footer_only_on_last_page p.header_html
      p.footer_html p.body_html).map renderBodySegment) ++ bodyClose

/-- Full composed document (src/pagify.js lines 203-345): markup, the two
scripts with the instance identifier interpolated, the parameterized style
block, the extra head content, and the body segments, in template order. -/
def buildIframeHTML (p : ComposeParams) : String :=
  docHead ++ getPagedJSInitScript p.instanceId ++ scriptGap ++
    getPdfGenerationScript p.instanceId ++ buildTail p

/-- Compose-parameter object built by `render` from its options and the
freshly allocated identifier (src/pagify.js lines 168-182). -/
def composeOf (instanceId : Nat) (o : RenderOptions) : ComposeParams :=
  { instanceId := instanceId
    body_html := o.body_html
    header_html := o.header_html
    footer_html := o.footer_html
    head_html := o.head_html
    page_size := o.page_size
    margin_left := o.margin_left
    margin_right := o.margin_right
    header_height := o.header_height
    footer_height := o.footer_height
    footer_only_on_last_page := o.footer_only_on_last_page
    page_padding_top := o.page_padding_top
    pageNumberCSS := pageNumberCSSOf o.page_number_selector }

/-- Style of the iframe created by `createIframe` (src/pagify.js lines
608-626): fill the container when a selector was given (truthy), otherwise
position off-screen; the border is removed in both branches. -/
def createIframe (containerSelector : Option String) : IframeStyle :=
  if jsTruthyStr containerSelector then
    { width := some "100%", height := some "100%", border := some "none" }
  else
    { position := some "absolute", top := some "-9999px", left := some "-9999px",
      border := some "none" }

/-- Container resolution (src/pagify.js lines 631-643): a truthy selector is
resolved with `querySelector`; a miss warns and falls back to
`document.body`; an invalid selector throws; an absent or empty selector
goes straight to `document.body`. -/
def getContainer (env : Env) (sel : Option String) :
    Except String (Node × List Effect) :=
  if jsTruthyStr sel then
    match env.querySelector (sel.getD "") with
    | QueryResult.found n => Except.ok (n, [])
    | QueryResult.notFound =>
        Except.ok (Node.body,
          [Effect.consoleWarn ("Container with selector \"" ++ sel.getD "" ++
            "\" not found. Using document.body instead.")])
    | QueryResult.invalidSelector =>
        Except.error ("Failed to execute querySelector on Document: " ++
          sel.getD "" ++ " is not a valid selector.")
  else Except.ok (Node.body, [])

/-- Store a value under a key (JS object property assignment). -/
def storeKey {α : Type} (store : Nat → Option α) (k : Nat) (v : α) :
    Nat → Option α :=
  fun n => if n = k then some v else store n

/-- Delete a possibly-absent key (JS `delete obj[k]`; deleting with an
undefined key touches no numeric entry). -/
def deleteKey {α : Type} (store : Nat → Option α) (k : Option Nat) :
    Nat → Option α :=
  fun n =>
    match k with
    | some i => if n = i then none else store n
    | none => store n

/-- Creation of the iframe document and mounting of the iframe: the part of
`render` after the registry updates (src/pagify.js lines 184-190).  Fails
(throws) when `document` is absent or the selector is invalid. -/
def renderMountStep (env : Env) (o : RenderOptions) (html : String) :
    Except String (List Effect × Node × Iframe) :=
  if env.hasDocument = false then Except.error "document is not defined"
  else
    let frame : Iframe := { style := createIframe o.containerSelector, srcdoc := html }
    match getContainer env o.containerSelector with
    | Except.error e => Except.error e
    | Except.ok (container, warns) =>
        Except.ok (warns ++ [Effect.appendIframe container frame], container, frame)

/-- The try-block of `render` (src/pagify.js lines 146-191): allocate the
identifier, store the callbacks, compose the document, then create and mount
the iframe.  Registry mutations precede any throwing step, so the returned
state stands even when the final component is an error. -/
def renderTry (env : Env) (st : SDKState) (o : RenderOptions) :
    SDKState × Nat × String × Except String (List Effect × Node × Iframe) :=
  let instanceId := st.instanceCounter
  let st1 : SDKState :=
    { instanceCounter := st.instanceCounter + 1
      callbackStorage := storeKey st.callbackStorage instanceId o.callback
      pdfCallbackStorage :=
        if o.onPdfReady.isSome || o.onPdfError.isSome then
          storeKey st.pdfCallbackStorage instanceId
            { onPdfReady := o.onPdfReady, onPdfError := o.onPdfError }
        else st.pdfCallbackStorage }
  let html := buildIframeHTML (composeOf instanceId o)
  (st1, instanceId, html, renderMountStep env o html)

/-- Effects produced by the catch-block of `render` (src/pagify.js lines
192-197): log the failure and route the message to `onPdfError` when one was
supplied. -/
def catchEffects (o : RenderOptions) (e : String) : List Effect :=
  Effect.consoleError ("Pagify render error: " ++ e) ::
    (match o.onPdfError with
     | some cb => [Effect.invokePdfError cb e]
     | none => [])

/-- Outcome of one `render` call: the state after the call, the identifier
allocated for it, the composed document, the host-side effects, and the
mounted iframe when mounting succeeded. -/
structure RenderResult where
  state : SDKState
  allocatedId : Nat
  composedHTML : String
  effects : List Effect
  mounted : Option (Node × Iframe)

/-- The awaitable returned by `render` (src/pagify.js lines 128-198): the
try-block either completes, or its failure is caught, logged, and routed, so
both branches fulfil. -/
def render (env : Env) (st : SDKState) (o : RenderOptions) :
    Except String RenderResult :=
  let t := renderTry env st o
  match t.2.2.2 with
  | Except.ok (effs, container, frame) =>
      Except.ok
        { state := t.1, allocatedId := t.2.1, composedHTML := t.2.2.1,
          effects := effs, mounted := some (container, frame) }
  | Except.error e =>
      Except.ok
        { state := t.1, allocatedId := t.2.1, composedHTML := t.2.2.1,
          effects := catchEffects o e, mounted := none }

/-- Boolean test for a fulfilled `Except`. -/
def exceptOk {ε α : Type} : Except ε α → Bool
  | Except.ok _ => true
  | Except.error _ => false

/-- The error of the try-block of `render`, when it failed. -/
def tryErr (env : Env) (st : SDKState) (o : RenderOptions) : Option String :=
  match (renderTry env st o).2.2.2 with
  | Except.error e => some e
  | Except.ok _ => none

/-- Effects of a `render` call (the effect list of its fulfilled result). -/
def effectsOfRender (env : Env) (st : SDKState) (o : RenderOptions) : List Effect :=
  match render env st o with
  | Except.ok r => r.effects
  | Except.error _ => []

/-- One step of the process-wide message listener (src/pagify.js lines
36-79): dispatch on the discriminant, consult the registries, and emit the
console, callback, event, and deletion effects exactly as the handler body
does. -/
def handleMessage (st : SDKState) (msg : Message) : SDKState × List Effect :=
  match msg with
  | Message.renderpdf iter =>
      let cb : Option (Option Cb) :=
        match iter with
        | some i => st.callbackStorage i
        | none => none
      let effs : List Effect :=
        match cb with
        | some (some c) => [Effect.invokeCb c]
        | _ => []
      ({ st with callbackStorage := deleteKey st.callbackStorage iter }, effs)
  | Message.PDF_READY iter blobUrl =>
      let go : SDKState × List Effect :=
        if jsTruthyNat iter then
          match iter with
          | some i =>
            match st.pdfCallbackStorage i with
            | some pair =>
              match pair.onPdfReady with
              | some c =>
                  ({ st with pdfCallbackStorage := deleteKey st.pdfCallbackStorage (some i) },
                   [Effect.invokePdfReady c blobUrl])
              | none => (st, [])
            | none => (st, [])
          | none => (st, [])
        else (st, [])
      (go.1, Effect.consoleLog ("PDF blob ready: " ++ blobUrl) :: go.2 ++
        [Effect.dispatchEvent "pdfReady" blobUrl])
  | Message.PDF_ERROR iter error =>
      let go : SDKState × List Effect :=
        if jsTruthyNat iter then
          match iter with
          | some i =>
            match st.pdfCallbackStorage i with
            | some pair =>
              match pair.onPdfError with
              | some c =>
                  ({ st with pdfCallbackStorage := deleteKey st.pdfCallbackStorage (some i) },
                   [Effect.invokePdfError c error])
              | none => (st, [])
            | none => (st, [])
          | none => (st, [])
        else (st, [])
      (go.1, Effect.consoleError ("PDF generation error: " ++ error) :: go.2 ++
        [Effect.dispatchEvent "pdfError" error])
  | Message.other => (st, [])

/-- Options as modified by `generatePDF` before it delegates to `render`
(src/pagify.js lines 657-669): the two pdf callbacks are replaced by the
synthesized resolve/reject closures. -/
def genModifiedOptions (o : RenderOptions) : RenderOptions :=
  { o with onPdfReady := some Cb.resolveWithFetchedBlob,
           onPdfError := some Cb.rejectWithError }

/-- The direct-conversion facade (src/pagify.js lines 650-676): reject
immediately when no window capability exists, otherwise drive `render` with
the synthesized callbacks. -/
def generatePDF (env : Env) (st : SDKState) (o : RenderOptions) :
    Except String RenderResult × SDKState :=
  if env.hasWindow = false then
    (Except.error "Direct PDF generation is only available in browser environments", st)
  else
    match render env st (genModifiedOptions o) with
    | Except.ok r => (Except.ok r, r.state)
    | Except.error e => (Except.error e, st)

/-- Removal of page `i` (1-based) from a page-indexed pdf, as jsPDF's
`deletePage`. -/
def deletePage {α : Type} (pdf : List α) (i : Nat) : List α :=
  pdf.take (i - 1) ++ pdf.drop i

/-- The trimming loop of the generated pdf script:
`for (let i = pageCount; i > totalPages; i--) pdf.deletePage(i)`
(src/pagify.js lines 569-571). -/
def deleteLoop {α : Type} (totalPages : Nat) (i : Nat) (pdf : List α) : List α :=
  if totalPages < i then deleteLoop totalPages (i - 1) (deletePage pdf i) else pdf
termination_by i
decreasing_by omega

/-- The page-trim step of the generated pdf script (src/pagify.js lines
565-572): read the conversion page count, and when it exceeds a positive
pagination total, delete pages from the end down to the total. -/
def trimExtraPages {α : Type} (totalPages : Nat) (pdf : List α) : List α :=
  let pageCount := pdf.length
  if pageCount > totalPages ∧ totalPages > 0 then deleteLoop totalPages pageCount pdf
  else pdf

/-- State of the singleton SDK instance as constructed
(src/pagify.js lines 21-31): counter at 1, empty registries. -/
def initialState : SDKState :=
  { instanceCounter := 1,
    callbackStorage := fun _ => none,
    pdfCallbackStorage := fun _ => none }

/-- Sequential render invocations, collecting the allocated identifiers. -/
def runRenders (env : Env) : SDKState → List RenderOptions → SDKState × List Nat
  | st, [] => (st, [])
  | st, o :: rest =>
    match render env st o with
    | Except.ok r =>
        let next := runRenders env r.state rest
        (next.1, r.allocatedId :: next.2)
    | Except.error _ => (st, [])

/-- The property the claim about container mounting calls "bordered": the
iframe's border style is set and is not the none value. -/
def Bordered (s : IframeStyle) : Prop := s.border ≠ none ∧ s.border ≠ some "none"

/-- Render options used throughout the concrete instances: all defaults. -/
def defaultOptions : RenderOptions := {}

/-- Browser-like environment whose selector resolution finds `#c`. -/
def env9 : Env :=
  { hasWindow := true, hasDocument := true,
    querySelector := fun s =>
      if s = "#c" then QueryResult.found (Node.element 0) else QueryResult.notFound }

/-- Render options mounting into `#c`. -/
def o9 : RenderOptions := { containerSelector := some "#c" }

/-- Style of the iframe mounted by `render env9 initialState o9`. -/
def c9MountedStyle : IframeStyle :=
  match render env9 initialState o9 with
  | Except.ok r =>
    match r.mounted with
    | some p => p.2.style
    | none => {}
  | Except.error _ => {}

/-- Environment with a window but no document (composition succeeds, the
mount step throws). -/
def envNoDoc : Env :=
  { hasWindow := true, hasDocument := false,
    querySelector := fun _ => QueryResult.notFound }

/-- Environment with no window capability at all. -/
def envNoWindow : Env :=
  { hasWindow := false, hasDocument := false,
    querySelector := fun _ => QueryResult.notFound }

/-- Browser-like environment that resolves no selector. -/
def envFull : Env :=
  { hasWindow := true, hasDocument := true,
    querySelector := fun _ => QueryResult.notFound }

/-- Render options supplying only an error callback. -/
def o6 : RenderOptions := { onPdfError := some (Cb.user 7) }

/-- Registry state holding, under key 1, a pdf-callback pair whose ready
side is null (reachable by a render that supplied only `onPdfError`). -/
def st3 : SDKState :=
  { instanceCounter := 2,
    callbackStorage := fun _ => none,
    pdfCallbackStorage := fun k =>
      if k = 1 then some { onPdfReady := none, onPdfError := some (Cb.user 0) } else none }

/-- Registry state holding, under key 1, a pdf-callback pair with both
sides present. -/
def st3r : SDKState :=
  { instanceCounter := 2,
    callbackStorage := fun _ => none,
    pdfCallbackStorage := fun k =>
      if k = 1 then
        some { onPdfReady := some (Cb.user 1), onPdfError := some (Cb.user 2) }
      else none }

/-- Registry state holding a completion callback under key 1. -/
def st7 : SDKState :=
  { instanceCounter := 2,
    callbackStorage := fun k => if k = 1 then some (some (Cb.user 3)) else none,
    pdfCallbackStorage := fun _ => none }

end Pagify

namespace Pagify

/-- The try-block of `render` always fulfils with the allocated identifier,
an incremented counter, and the document composed from that identifier. -/
theorem render_ok (env : Env) (st : SDKState) (o : RenderOptions) :
    ∃ r, render env st o = Except.ok r ∧
      r.allocatedId = st.instanceCounter ∧
      r.state.instanceCounter = st.instanceCounter + 1 ∧
      r.composedHTML = buildIframeHTML (composeOf st.instanceCounter o) := by
  unfold render renderTry
  dsimp only
  cases h : renderMountStep env o (buildIframeHTML (composeOf st.instanceCounter o)) with
  | ok v =>
    obtain ⟨effs, container, frame⟩ := v
    simp only [h]
    exact ⟨_, rfl, rfl, rfl, rfl⟩
  | error e =>
    simp only [h]
    exact ⟨_, rfl, rfl, rfl, rfl⟩

/-- Running the trimming loop from the page count down to the total keeps
exactly the first `total` pages. -/
theorem deleteLoop_eq_take {α : Type} (total : Nat) :
    ∀ (i : Nat) (pdf : List α), pdf.length = i → total ≤ i →
      deleteLoop total i pdf = pdf.take total := by
  intro i
  induction i with
  | zero =>
    intro pdf hl ht
    unfold deleteLoop
    have hnc : ¬ total < 0 := by omega
    have h0 : total = 0 := by omega
    have hnil : pdf = [] := List.eq_nil_of_length_eq_zero hl
    simp [hnc, h0, hnil]
  | succ i ih =>
    intro pdf hl ht
    unfold deleteLoop
    by_cases h : total < i + 1
    · simp only [if_pos h]
      have hdrop : pdf.drop (i + 1) = [] := List.drop_eq_nil_of_le (by omega)
      have hdp : deletePage pdf (i + 1) = pdf.take i := by
        unfold deletePage
        simp [hdrop]
      rw [show i + 1 - 1 = i by omega, hdp]
      rw [ih (pdf.take i) (by simp [hl]) (by omega)]
      rw [List.take_take]
      congr 1
      omega
    · simp only [if_neg h]
      have htot : total = i + 1 := by omega
      rw [htot, ← hl, List.take_length]

/-- Claim C2: when the conversion page count exceeds a positive pagination
total, the trimming step keeps exactly the first `total` pages (deleting
precisely the trailing excess, so the resulting page count equals the total);
otherwise no page is deleted. -/
theorem trim_exact_or_noop :
    (∀ {α : Type} (pdf : List α) (total : Nat), total < pdf.length → 0 < total →
        trimExtraPages total pdf = pdf.take total ∧
        (trimExtraPages total pdf).length = total) ∧
    (∀ {α : Type} (pdf : List α) (total : Nat), ¬ (total < pdf.length ∧ 0 < total) →
        trimExtraPages total pdf = pdf) := by
  constructor
  · intro α pdf total h1 h2
    have he : trimExtraPages total pdf = pdf.take total := by
      unfold trimExtraPages
      dsimp only
      rw [if_pos ⟨h1, h2⟩]
      exact deleteLoop_eq_take total pdf.length pdf rfl (by omega)
    refine ⟨he, ?_⟩
    rw [he, List.length_take]
    omega
  · intro α pdf total h
    unfold trimExtraPages
    dsimp only
    rw [if_neg h]

/-- Witness for C2: a three-page conversion against a total of two is trimmed
to exactly the first two pages; a two-page conversion against a total of five
is untouched. -/
theorem trim_exact_or_noop_witness :
    trimExtraPages 2 [10, 20, 30] = [10, 20] ∧ trimExtraPages 5 [1, 2] = [1, 2] := by
  constructor
  · exact ((trim_exact_or_noop.1 [10, 20, 30] 2 (by decide) (by decide)).1).trans (by decide)
  · exact trim_exact_or_noop.2 [1, 2] 5 (by decide)

/-- Claim C5: with footer-only-on-last-page false the composed body carries
exactly one footer region before the body content and none after it; with
the flag true, none before and exactly one after; in both cases exactly one
footer region overall. -/
theorem footer_placement_exclusive :
    (∀ (h f b : String),
        footersBeforeBody (iframeBodySegments false h f b) = 1 ∧
        footersAfterBody (iframeBodySegments false h f b) = 0 ∧
        (iframeBodySegments false h f b).countP BodySegment.isFooter = 1) ∧
    (∀ (h f b : String),
        footersBeforeBody (iframeBodySegments true h f b) = 0 ∧
        footersAfterBody (iframeBodySegments true h f b) = 1 ∧
        (iframeBodySegments true h f b).countP BodySegment.isFooter = 1) := by
  refine ⟨fun h f b => ⟨?_, ?_, ?_⟩, fun h f b => ⟨?_, ?_, ?_⟩⟩ <;> rfl

/-- Claim C7: processing a `renderpdf` message for an id invokes the stored
completion callback when one is present, deletes the completion entry for
that id regardless of whether a callback existed, leaves the completion
entries of every other id alone, and leaves the pdf-callback registry
entirely unchanged. -/
theorem completion_message_resolution : ∀ (st : SDKState) (i : Nat),
    ((handleMessage st (Message.renderpdf (some i))).1.pdfCallbackStorage =
      st.pdfCallbackStorage) ∧
    ((handleMessage st (Message.renderpdf (some i))).1.callbackStorage i = none) ∧
    (∀ j, j ≠ i →
      (handleMessage st (Message.renderpdf (some i))).1.callbackStorage j =
        st.callbackStorage j) ∧
    (∀ c, st.callbackStorage i = some (some c) →
      (handleMessage st (Message.renderpdf (some i))).2 = [Effect.invokeCb c]) ∧
    (st.callbackStorage i = none →
      (handleMessage st (Message.renderpdf (some i))).2 = []) ∧
    (st.callbackStorage i = some none →
      (handleMessage st (Message.renderpdf (some i))).2 = []) := by
  intro st i
  refine ⟨rfl, ?_, ?_, ?_, ?_, ?_⟩
  · simp [handleMessage, deleteKey]
  · intro j hj
    simp [handleMessage, deleteKey, hj]
  · intro c hc
    simp [handleMessage, hc]
  · intro hc
    simp [handleMessage, hc]
  · intro hc
    simp [handleMessage, hc]

/-- Witness for C7: with a completion callback stored under id 1, the
completion message for id 1 invokes it, clears its entry, and leaves the
pdf-callback registry untouched. -/
theorem completion_message_resolution_witness :
    (handleMessage st7 (Message.renderpdf (some 1))).1.callbackStorage 1 = none ∧
    (handleMessage st7 (Message.renderpdf (some 1))).2 = [Effect.invokeCb (Cb.user 3)] ∧
    (handleMessage st7 (Message.renderpdf (some 1))).1.pdfCallbackStorage =
      st7.pdfCallbackStorage := by
  have h := completion_message_resolution st7 1
  exact ⟨h.2.1, h.2.2.2.1 (Cb.user 3) rfl, h.1⟩

/-- Claim C10: every `PDF_READY` message dispatches a window-level
`pdfReady` event carrying the artifact reference and every `PDF_ERROR`
message dispatches a `pdfError` event carrying the error message, for every
registry state — including ids with no registered callback pair. -/
theorem global_events_always_dispatched :
    (∀ (st : SDKState) (iter : Option Nat) (url : String),
        Effect.dispatchEvent "pdfReady" url ∈
          (handleMessage st (Message.PDF_READY iter url)).2) ∧
    (∀ (st : SDKState) (iter : Option Nat) (err : String),
        Effect.dispatchEvent "pdfError" err ∈
          (handleMessage st (Message.PDF_ERROR iter err)).2) := by
  constructor <;> intro st iter s <;> simp [handleMessage]

end Pagify

namespace Pagify

/-- Claim C1: every render invocation composes a document in which the
identifier interpolated into the initialization script and into the
pdf-generation script — at every postMessage splice point of both — is
exactly the identifier the registry allocated for that invocation (the
counter value at the start of the call). -/
theorem render_embeds_allocated_id :
    ∀ (env : Env) (st : SDKState) (o : RenderOptions),
      ∃ r, render env st o = Except.ok r ∧
        r.allocatedId = st.instanceCounter ∧
        (∃ pre mid post, r.composedHTML =
          pre ++ getPagedJSInitScript r.allocatedId ++ mid ++
            getPdfGenerationScript r.allocatedId ++ post) ∧
        getPagedJSInitScript r.allocatedId =
          pagedInitPart1 ++ iterField r.allocatedId ++ pagedInitPart2 ++
            iterField r.allocatedId ++ pagedInitPart3 ∧
        getPdfGenerationScript r.allocatedId =
          pdfGenPart1 ++ iterField r.allocatedId ++ pdfGenPart2 ++
            iterField r.allocatedId ++ pdfGenPart3 ++ iterField r.allocatedId ++
            pdfGenPart4 ∧
        iterField r.allocatedId = "iter: " ++ Nat.repr r.allocatedId := by
  intro env st o
  obtain ⟨r, hr, hid, hcnt, hhtml⟩ := render_ok env st o
  refine ⟨r, hr, hid,
    ⟨docHead, scriptGap, buildTail (composeOf st.instanceCounter o), ?_⟩, ?_, ?_, ?_⟩
  · rw [hhtml, hid]
    rfl
  · rw [hid]
    rfl
  · rw [hid]
    rfl
  · rw [hid]
    rfl

/-- Identifier stream of a sequence of render invocations: consecutive
counter values starting at the counter of the initial state, and the counter
advances by one per invocation. -/
theorem runRenders_spec (env : Env) :
    ∀ (opts : List RenderOptions) (st : SDKState),
      (runRenders env st opts).2 = List.range' st.instanceCounter opts.length ∧
      (runRenders env st opts).1.instanceCounter = st.instanceCounter + opts.length := by
  intro opts
  induction opts with
  | nil =>
    intro st
    simp [runRenders]
  | cons o rest ih =>
    intro st
    obtain ⟨r, hr, hid, hcnt, _⟩ := render_ok env st o
    simp only [runRenders]
    rw [hr]
    dsimp only
    constructor
    · rw [hid, (ih r.state).1, hcnt, List.length_cons, List.range'_succ]
    · rw [(ih r.state).2, hcnt, List.length_cons]
      omega

/-- Claim C4: across any sequence of render invocations from the freshly
constructed instance, the allocated identifiers are exactly 1, 2, 3, …
(the counter starts at 1 and is incremented unconditionally on each call),
hence strictly increasing and pairwise distinct. -/
theorem ids_start_at_one_strictly_increasing :
    ∀ (env : Env) (opts : List RenderOptions),
      (runRenders env initialState opts).2 = List.range' 1 opts.length ∧
      (runRenders env initialState opts).1.instanceCounter = 1 + opts.length ∧
      List.Pairwise (· < ·) (runRenders env initialState opts).2 ∧
      (runRenders env initialState opts).2.Nodup := by
  intro env opts
  have h := runRenders_spec env opts initialState
  have h1 : (runRenders env initialState opts).2 = List.range' 1 opts.length := h.1
  refine ⟨h1, h.2, ?_, ?_⟩
  · rw [h1]
    exact List.pairwise_lt_range' 1 opts.length
  · rw [h1]
    exact List.nodup_range' 1 opts.length

/-- Claim C6: the awaitable returned by `render` always fulfils — every
internal failure of the try-block is caught; the caught failure is logged at
error level and, when an error callback was supplied, routed to it. -/
theorem render_never_rejects :
    ∀ (env : Env) (st : SDKState) (o : RenderOptions),
      exceptOk (render env st o) = true ∧
      (∀ e, tryErr env st o = some e →
        effectsOfRender env st o =
          Effect.consoleError ("Pagify render error: " ++ e) ::
            (match o.onPdfError with
             | some cb => [Effect.invokePdfError cb e]
             | none => [])) := by
  intro env st o
  constructor
  · unfold render
    dsimp only
    cases h : (renderTry env st o).2.2.2 with
    | ok v =>
      obtain ⟨effs, c, f⟩ := v
      simp [h, exceptOk]
    | error e =>
      simp [h, exceptOk]
  · intro e he
    unfold tryErr at he
    unfold effectsOfRender render
    dsimp only
    cases h : (renderTry env st o).2.2.2 with
    | ok v =>
      rw [h] at he
      simp at he
    | error e2 =>
      rw [h] at he
      simp only [Option.some.injEq] at he
      subst he
      simp [h, catchEffects]

/-- Witness for C6: in an environment without a document the mount step
throws, yet render fulfils, logs the failure, and routes the message to the
supplied error callback. -/
theorem render_never_rejects_witness :
    exceptOk (render envNoDoc initialState o6) = true ∧
    effectsOfRender envNoDoc initialState o6 =
      [Effect.consoleError "Pagify render error: document is not defined",
       Effect.invokePdfError (Cb.user 7) "document is not defined"] := by
  have h := render_never_rejects envNoDoc initialState o6
  refine ⟨h.1, ?_⟩
  have h2 := h.2 "document is not defined" rfl
  rw [h2]
  rfl

end Pagify

namespace Pagify

/-- Claim C3 (amended): when a PDF-ready or PDF-error message arrives for a
nonzero id, the handler invokes the matching side of the stored pair and
deletes the entire pair entry provided that matching side is present; when
no pair is stored — or the stored pair lacks the matching side — the
registry is left unchanged and no callback is invoked. -/
theorem pdf_resolution_amended :
    ∀ (st : SDKState) (i : Nat) (url err : String), i ≠ 0 →
      ((∀ pair c, st.pdfCallbackStorage i = some pair → pair.onPdfReady = some c →
          (handleMessage st (Message.PDF_READY (some i) url)).1.pdfCallbackStorage i =
            none ∧
          (∀ j, j ≠ i →
            (handleMessage st (Message.PDF_READY (some i) url)).1.pdfCallbackStorage j =
              st.pdfCallbackStorage j) ∧
          (handleMessage st (Message.PDF_READY (some i) url)).2 =
            [Effect.consoleLog ("PDF blob ready: " ++ url),
             Effect.invokePdfReady c url,
             Effect.dispatchEvent "pdfReady" url]) ∧
       (st.pdfCallbackStorage i = none →
          (handleMessage st (Message.PDF_READY (some i) url)).1 = st ∧
          (handleMessage st (Message.PDF_READY (some i) url)).2 =
            [Effect.consoleLog ("PDF blob ready: " ++ url),
             Effect.dispatchEvent "pdfReady" url]) ∧
       (∀ pair, st.pdfCallbackStorage i = some pair → pair.onPdfReady = none →
          (handleMessage st (Message.PDF_READY (some i) url)).1 = st ∧
          (handleMessage st (Message.PDF_READY (some i) url)).2 =
            [Effect.consoleLog ("PDF blob ready: " ++ url),
             Effect.dispatchEvent "pdfReady" url])) ∧
      ((∀ pair c, st.pdfCallbackStorage i = some pair → pair.onPdfError = some c →
          (handleMessage st (Message.PDF_ERROR (some i) err)).1.pdfCallbackStorage i =
            none ∧
          (∀ j, j ≠ i →
            (handleMessage st (Message.PDF_ERROR (some i) err)).1.pdfCallbackStorage j =
              st.pdfCallbackStorage j) ∧
          (handleMessage st (Message.PDF_ERROR (some i) err)).2 =
            [Effect.consoleError ("PDF generation error: " ++ err),
             Effect.invokePdfError c err,
             Effect.dispatchEvent "pdfError" err]) ∧
       (st.pdfCallbackStorage i = none →
          (handleMessage st (Message.PDF_ERROR (some i) err)).1 = st ∧
          (handleMessage st (Message.PDF_ERROR (some i) err)).2 =
            [Effect.consoleError ("PDF generation error: " ++ err),
             Effect.dispatchEvent "pdfError" err]) ∧
       (∀ pair, st.pdfCallbackStorage i = some pair → pair.onPdfError = none →
          (handleMessage st (Message.PDF_ERROR (some i) err)).1 = st ∧
          (handleMessage st (Message.PDF_ERROR (some i) err)).2 =
            [Effect.consoleError ("PDF generation error: " ++ err),
             Effect.dispatchEvent "pdfError" err])) := by
  intro st i url err hi
  have htr : jsTruthyNat (some i) = true := by
    simp [jsTruthyNat, hi]
  constructor
  · refine ⟨?_, ?_, ?_⟩
    · intro pair c hpair hready
      refine ⟨?_, ?_, ?_⟩
      · simp [handleMessage, htr, hpair, hready, deleteKey]
      · intro j hj
        simp [handleMessage, htr, hpair, hready, deleteKey, hj]
      · simp [handleMessage, htr, hpair, hready]
    · intro hnone
      constructor
      · simp [handleMessage, htr, hnone]
      · simp [handleMessage, htr, hnone]
    · intro pair hpair hready
      constructor
      · simp [handleMessage, htr, hpair, hready]
      · simp [handleMessage, htr, hpair, hready]
  · refine ⟨?_, ?_, ?_⟩
    · intro pair c hpair herr
      refine ⟨?_, ?_, ?_⟩
      · simp [handleMessage, htr, hpair, herr, deleteKey]
      · intro j hj
        simp [handleMessage, htr, hpair, herr, deleteKey, hj]
      · simp [handleMessage, htr, hpair, herr]
    · intro hnone
      constructor
      · simp [handleMessage, htr, hnone]
      · simp [handleMessage, htr, hnone]
    · intro pair hpair herr
      constructor
      · simp [handleMessage, htr, hpair, herr]
      · simp [handleMessage, htr, hpair, herr]

/-- Claim C3 counterexample: with a pair stored under id 1 whose ready side
is null (as a render supplying only an error callback stores), the PDF-ready
message for id 1 leaves the pair entry stored and invokes nothing — the
claim that a stored pair is always invoked-and-deleted fails here. -/
theorem pdf_resolution_counterexample :
    st3.pdfCallbackStorage 1 =
      some { onPdfReady := none, onPdfError := some (Cb.user 0) } ∧
    (handleMessage st3 (Message.PDF_READY (some 1) "blob:x")).1.pdfCallbackStorage 1 =
      some { onPdfReady := none, onPdfError := some (Cb.user 0) } ∧
    (handleMessage st3 (Message.PDF_READY (some 1) "blob:x")).2 =
      [Effect.consoleLog "PDF blob ready: blob:x",
       Effect.dispatchEvent "pdfReady" "blob:x"] := by
  refine ⟨rfl, rfl, rfl⟩

/-- Witness for the amended C3: a pair with both sides present is invoked on
its ready side and fully removed by a PDF-ready message for its id, and a
PDF-error message for an id with no stored pair changes nothing. -/
theorem pdf_resolution_amended_witness :
    (handleMessage st3r (Message.PDF_READY (some 1) "blob:y")).1.pdfCallbackStorage 1 =
      none ∧
    (handleMessage st3r (Message.PDF_READY (some 1) "blob:y")).2 =
      [Effect.consoleLog "PDF blob ready: blob:y",
       Effect.invokePdfReady (Cb.user 1) "blob:y",
       Effect.dispatchEvent "pdfReady" "blob:y"] ∧
    (handleMessage st3r (Message.PDF_ERROR (some 2) "boom")).1 = st3r := by
  have h := pdf_resolution_amended st3r 1 "blob:y" "boom" (by decide)
  have ha := h.1.1 { onPdfReady := some (Cb.user 1), onPdfError := some (Cb.user 2) }
    (Cb.user 1) rfl rfl
  have h2 := pdf_resolution_amended st3r 2 "u" "boom" (by decide)
  exact ⟨ha.1, ha.2.2, (h2.2.2.1 rfl).1⟩

/-- Claim C8: without a window capability `generatePDF` rejects immediately
with the capability error, leaving the state untouched and mounting nothing;
with a window it is exactly `render` driven with the synthesized callbacks,
whose ready side dereferences the blob url into a concrete blob before
resolving and whose error side rejects carrying the message text. -/
theorem generatePDF_paths :
    ∀ (env : Env) (st : SDKState) (o : RenderOptions),
      (env.hasWindow = false →
        generatePDF env st o =
          (Except.error "Direct PDF generation is only available in browser environments",
           st)) ∧
      (env.hasWindow = true →
        (generatePDF env st o).1 = render env st (genModifiedOptions o)) ∧
      (genModifiedOptions o).onPdfReady = some Cb.resolveWithFetchedBlob ∧
      (genModifiedOptions o).onPdfError = some Cb.rejectWithError ∧
      (∀ url, applyPdfReady Cb.resolveWithFetchedBlob url =
        some (CbResult.resolveWith (Blob.ofUrl url))) ∧
      (∀ msg, applyPdfError Cb.rejectWithError msg =
        some (CbResult.rejectWith msg)) := by
  intro env st o
  refine ⟨?_, ?_, rfl, rfl, fun url => rfl, fun msg => rfl⟩
  · intro hw
    simp [generatePDF, hw]
  · intro hw
    obtain ⟨r, hr, _, _, _⟩ := render_ok env st (genModifiedOptions o)
    simp only [generatePDF, hw]
    rw [hr]
    rfl

/-- Witness for C8: the facade rejects with the capability error in the
window-less environment, and in a browser-like environment its result is the
result of `render` on the modified options. -/
theorem generatePDF_paths_witness :
    generatePDF envNoWindow initialState defaultOptions =
      (Except.error "Direct PDF generation is only available in browser environments",
       initialState) ∧
    (generatePDF envFull initialState defaultOptions).1 =
      render envFull initialState (genModifiedOptions defaultOptions) := by
  exact ⟨(generatePDF_paths envNoWindow initialState defaultOptions).1 rfl,
         (generatePDF_paths envFull initialState defaultOptions).2.1 rfl⟩

/-- Claim C9 (amended): a render whose mount selector resolves to an
existing node appends exactly one iframe as a child of that node, sized to
fill the container (width and height 100%) and with its border removed. -/
theorem container_mount_amended :
    ∀ (env : Env) (st : SDKState) (o : RenderOptions) (sel : String) (n : Node),
      o.containerSelector = some sel → sel.isEmpty = false →
      env.hasDocument = true → env.querySelector sel = QueryResult.found n →
      ∃ r, render env st o = Except.ok r ∧
        r.mounted = some (n,
          { style := { width := some "100%", height := some "100%",
                       border := some "none", position := none, top := none,
                       left := none },
            srcdoc := r.composedHTML }) ∧
        r.effects = [Effect.appendIframe n
          { style := { width := some "100%", height := some "100%",
                       border := some "none", position := none, top := none,
                       left := none },
            srcdoc := r.composedHTML }] := by
  intro env st o sel n hsel hne hdoc hq
  have hm : renderMountStep env o (buildIframeHTML (composeOf st.instanceCounter o)) =
      Except.ok
        ([Effect.appendIframe n
            { style := { width := some "100%", height := some "100%",
                         border := some "none", position := none, top := none,
                         left := none },
              srcdoc := buildIframeHTML (composeOf st.instanceCounter o) }],
         n,
         { style := { width := some "100%", height := some "100%",
                      border := some "none", position := none, top := none,
                      left := none },
           srcdoc := buildIframeHTML (composeOf st.instanceCounter o) }) := by
    unfold renderMountStep getContainer createIframe
    rw [hdoc, hsel]
    simp [jsTruthyStr, hne, hq]
  unfold render renderTry
  dsimp only
  simp only [hm]
  exact ⟨_, rfl, rfl, rfl⟩

/-- Witness for the amended C9: rendering into `#c` in an environment where
`#c` resolves appends exactly one full-size borderless iframe to that node. -/
theorem container_mount_amended_witness :
    effectsOfRender env9 initialState o9 =
      [Effect.appendIframe (Node.element 0)
        { style := { width := some "100%", height := some "100%",
                     border := some "none", position := none, top := none,
                     left := none },
          srcdoc := buildIframeHTML (composeOf 1 o9) }] := by
  obtain ⟨r, hr, hmount, heff⟩ :=
    container_mount_amended env9 initialState o9 "#c" (Node.element 0) rfl rfl rfl rfl
  have hh : r.composedHTML = buildIframeHTML (composeOf 1 o9) := by
    obtain ⟨r2, hr2, _, _, hhtml2⟩ := render_ok env9 initialState o9
    rw [hr] at hr2
    injection hr2 with hrr
    rw [hrr]
    exact hhtml2
  unfold effectsOfRender
  rw [hr]
  dsimp only
  rw [heff, hh]

/-- Claim C9 counterexample: at the concrete input where the selector `#c`
resolves, the mounted iframe's border style is the none value — the context
is full-size but borderless, not bordered as the claim states. -/
theorem container_iframe_not_bordered :
    c9MountedStyle =
      { width := some "100%", height := some "100%", border := some "none",
        position := none, top := none, left := none } ∧
    ¬ Bordered c9MountedStyle := by
  constructor
  · rfl
  · intro hb
    apply hb.2
    rfl

end Pagify
